import Mathlib

/-!
Verification of the Denavit-Hartenberg link descriptor (`DHLink`) of the
robotics toolbox: the kinematic data model with its validating setters, the
link transform evaluator `A`, the joint-type queries, and the chain
composition operator.

Python floats are modelled as real numbers, Python ints as `Int`, and a
raised exception as an explicit error value.  Each property setter of the
source returns the state of the object after the call together with the
exception it raised, if any: a setter that raises leaves the object exactly
as it was, and this pair form makes that observable.  The external base
class `Link` contributes the `offset` and `flip` attributes read by `A`;
its remaining attributes (joint limits, dynamic parameters, the
change-notification hook) are not consumed by any operation modelled here.
-/

/-- A Python exception value: `ValueError` or `TypeError`, with its message. -/
inductive PyError where
  | valueError (msg : String)
  | typeError (msg : String)
deriving DecidableEq, Repr

/-- The kinematic state of a `DHLink` object: the four DH scalars, the
joint-type discriminator `sigma` (0 revolute, nonzero prismatic), the
convention discriminator `mdh` (0 standard, nonzero modified), the
base-class attributes `offset` and `flip` consumed by `A`, and the
display index `id`. -/
structure DHLink where
  sigma : Int
  theta : ℝ
  d : ℝ
  alpha : ℝ
  a : ℝ
  mdh : Int
  offset : ℝ
  flip : Bool
  id : Option Int

/-- The `sigma` setter: stores the new joint type verbatim, no validation. -/
def set_sigma (l : DHLink) (v : Int) : DHLink × Option PyError :=
  ({ l with sigma := v }, none)

/-- The `theta` setter: rejects a nonzero joint angle on a revolute joint
(`not self.sigma and theta_new != 0.0`), else stores it. -/
noncomputable def set_theta (l : DHLink) (v : ℝ) : DHLink × Option PyError :=
  if l.sigma = 0 ∧ v ≠ 0 then
    (l, some (.valueError "theta is not valid for revolute joints"))
  else
    ({ l with theta := v }, none)

/-- The `d` setter: rejects a nonzero link offset on a prismatic joint
(`self.sigma and d_new != 0.0`), else stores it.  The message of the
raised error reads `f`, not `d`. -/
noncomputable def set_d (l : DHLink) (v : ℝ) : DHLink × Option PyError :=
  if l.sigma ≠ 0 ∧ v ≠ 0 then
    (l, some (.valueError "f is not valid for prismatic joints"))
  else
    ({ l with d := v }, none)

/-- The `alpha` setter: stores the link twist unconditionally. -/
def set_alpha (l : DHLink) (v : ℝ) : DHLink × Option PyError :=
  ({ l with alpha := v }, none)

/-- The `a` setter: stores the link length unconditionally. -/
def set_a (l : DHLink) (v : ℝ) : DHLink × Option PyError :=
  ({ l with a := v }, none)

/-- The `mdh` setter: stores `int(mdh_new)` unconditionally (the source is
always called with a `bool`). -/
def set_mdh (l : DHLink) (v : Bool) : DHLink × Option PyError :=
  ({ l with mdh := if v then 1 else 0 }, none)

/-- `DHLink.__init__`: starting from the state `l0` the base class left the
object in, assign the kinematic fields through their setters in source
order `sigma, theta, d, alpha, a, mdh`, then set `id = None`.  The run
stops at the first raised error, returning the object state at that point
together with the error. -/
noncomputable def DHLink_init (l0 : DHLink) (d alpha theta a : ℝ)
    (sigma : Int) (mdh : Bool) : DHLink × Option PyError :=
  match set_sigma l0 sigma with
  | (l1, some e) => (l1, some e)
  | (l1, none) =>
    match set_theta l1 theta with
    | (l2, some e) => (l2, some e)
    | (l2, none) =>
      match set_d l2 d with
      | (l3, some e) => (l3, some e)
      | (l3, none) =>
        match set_alpha l3 alpha with
        | (l4, some e) => (l4, some e)
        | (l4, none) =>
          match set_a l4 a with
          | (l5, some e) => (l5, some e)
          | (l5, none) =>
            match set_mdh l5 mdh with
            | (l6, some e) => (l6, some e)
            | (l6, none) => ({ l6 with id := none }, none)

/-- `RevoluteDH.__init__`: fixes `theta = 0`, `sigma = 0`, `mdh = False` and
forwards `d`, `a`, `alpha` (offset, qlim and flip go to the base class). -/
noncomputable def RevoluteDH_init (l0 : DHLink) (d a alpha : ℝ) :
    DHLink × Option PyError :=
  DHLink_init l0 d alpha 0 a 0 false

/-- `PrismaticDH.__init__`: fixes `d = 0`, `sigma = 1`, `mdh = False` and
forwards `theta`, `a`, `alpha`. -/
noncomputable def PrismaticDH_init (l0 : DHLink) (theta a alpha : ℝ) :
    DHLink × Option PyError :=
  DHLink_init l0 0 alpha theta a 1 false

/-- `RevoluteMDH.__init__`: fixes `theta = 0`, `sigma = 0`, `mdh = True`. -/
noncomputable def RevoluteMDH_init (l0 : DHLink) (d a alpha : ℝ) :
    DHLink × Option PyError :=
  DHLink_init l0 d alpha 0 a 0 true

/-- `PrismaticMDH.__init__`: fixes `d = 0`, `sigma = 1`, `mdh = True`. -/
noncomputable def PrismaticMDH_init (l0 : DHLink) (theta a alpha : ℝ) :
    DHLink × Option PyError :=
  DHLink_init l0 0 alpha theta a 1 true

/-- A 4x4 homogeneous transform, entry `mRC` in row R, column C. -/
structure Mat4 where
  m00 : ℝ
  m01 : ℝ
  m02 : ℝ
  m03 : ℝ
  m10 : ℝ
  m11 : ℝ
  m12 : ℝ
  m13 : ℝ
  m20 : ℝ
  m21 : ℝ
  m22 : ℝ
  m23 : ℝ
  m30 : ℝ
  m31 : ℝ
  m32 : ℝ
  m33 : ℝ

/-- `DHLink.A(q)`: the link transform.  Mirrors the source: adjust the drive
variable by `flip` and `offset`, resolve `(st, ct, d)` by joint type, then
fill the standard matrix when `mdh == 0` and the modified matrix otherwise.
The wrapping `SE3(T, check=False)` performs no re-validation, so the raw
matrix is the result. -/
noncomputable def A (l : DHLink) (q : ℝ) : Mat4 :=
  let sa := Real.sin l.alpha
  let ca := Real.cos l.alpha
  let q := if l.flip then -q + l.offset else q + l.offset
  let (st, ct, d) :=
    if l.sigma = 0 then
      (Real.sin q, Real.cos q, l.d)
    else
      (Real.sin l.theta, Real.cos l.theta, q)
  if l.mdh = 0 then
    ⟨ct, -st * ca, st * sa, l.a * ct,
     st, ct * ca, -ct * sa, l.a * st,
     0, sa, ca, d,
     0, 0, 0, 1⟩
  else
    ⟨ct, -st, 0, l.a,
     st * ca, ct * ca, -sa, -sa * d,
     st * sa, ct * sa, ca, ca * d,
     0, 0, 0, 1⟩

/-- `DHLink.isrevolute()`: true exactly when `sigma` is falsy. -/
def isrevolute (l : DHLink) : Bool :=
  if l.sigma = 0 then true else false

/-- `DHLink.isprismatic()`: true exactly when `sigma` is truthy. -/
def isprismatic (l : DHLink) : Bool :=
  if l.sigma = 0 then false else true

/-- The joint-type invariant the validating setters are meant to maintain:
a prismatic joint stores `d = 0`, a revolute joint stores `theta = 0`. -/
def JointInvariant (l : DHLink) : Prop :=
  (l.sigma ≠ 0 → l.d = 0) ∧ (l.sigma = 0 → l.theta = 0)

/-- A base state with every modelled attribute zeroed, as a concrete
starting point for constructor runs. -/
def dh0 : DHLink :=
  { sigma := 0, theta := 0, d := 0, alpha := 0, a := 0, mdh := 0,
    offset := 0, flip := false, id := none }

/-- A revolute link whose fixed offset distance `d` is 5, satisfying the
joint-type invariant. -/
def revD5 : DHLink := { dh0 with d := 5 }

/-- A prismatic link in the zero state. -/
def pris1 : DHLink := { dh0 with sigma := 1 }

/-- The standard-DH matrix exactly as displayed in the specification,
section 4.2. -/
noncomputable def specStandardMatrix (st ct sa ca a d : ℝ) : Mat4 :=
  ⟨ct, -st * ca, st * sa, a * ct,
   st, ct * ca, -ct * sa, a * st,
   0, sa, ca, d,
   0, 0, 0, 1⟩

/-- The modified-DH matrix exactly as displayed in the specification,
section 4.2. -/
noncomputable def specModifiedMatrix (st ct sa ca a d : ℝ) : Mat4 :=
  ⟨ct, -st, 0, a,
   st * ca, ct * ca, -sa, -sa * d,
   st * sa, ct * sa, ca, ca * d,
   0, 0, 0, 1⟩

/-- The transform evaluator as the specification words it, step by step:
(i) `q' = flip ? (-q + offset) : (q + offset)`; (ii) for a revolute joint
(`sigma = 0`) take `(st, ct) = (sin q', cos q')` and effective offset
distance the fixed `d`, for a prismatic joint take
`(st, ct) = (sin theta, cos theta)` and effective offset distance `q'`;
(iii) fill the standard matrix when the convention is standard (`mdh = 0`)
and the modified matrix otherwise, with `sa = sin alpha`, `ca = cos alpha`
and the fixed link length `a`. -/
noncomputable def A_spec (l : DHLink) (q : ℝ) : Mat4 :=
  let q' := if l.flip then -q + l.offset else q + l.offset
  let st := if l.sigma = 0 then Real.sin q' else Real.sin l.theta
  let ct := if l.sigma = 0 then Real.cos q' else Real.cos l.theta
  let dEff := if l.sigma = 0 then l.d else q'
  let sa := Real.sin l.alpha
  let ca := Real.cos l.alpha
  if l.mdh = 0 then
    specStandardMatrix st ct sa ca l.a dEff
  else
    specModifiedMatrix st ct sa ca l.a dEff

/-- 4x4 identity transform. -/
def mat4Id : Mat4 :=
  ⟨1, 0, 0, 0,
   0, 1, 0, 0,
   0, 0, 1, 0,
   0, 0, 0, 1⟩

/-- Modelled from the spec: the external chain collaborator (`DHRobot`,
whose source is not part of the verified tree) owns an ordered sequence of
link descriptors together with chain-level metadata — name, manufacturer,
base transform, tool transform and gravity vector (spec sections 2, 4.3). -/
structure DHRobot where
  links : List DHLink
  name : String
  manufacturer : String
  base : Mat4
  tool : Mat4
  gravity : ℝ × ℝ × ℝ

/-- Modelled from the spec: the chain constructor takes the link sequence
and optional metadata; `DHRobot([l1, l2])` with no metadata arguments uses
the chain's own defaults, which the spec leaves to the collaborator (an
empty name and manufacturer, identity base and tool, standard gravity). -/
def DHRobot_new (links : List DHLink) : DHRobot :=
  { links := links, name := "", manufacturer := "",
    base := mat4Id, tool := mat4Id, gravity := (0, 0, 9.81) }

/-- The operand of `DHLink.__add__`: a single link, an existing chain, or
any other Python object. -/
inductive AddOperand where
  | link (l : DHLink)
  | robot (r : DHRobot)
  | nonLink

/-- `DHLink.__add__`: a link operand yields the two-element chain
`DHRobot([self, L])`; a chain operand yields a new chain whose links are
`[self]` followed by `L.links[0], ..., L.links[n-1]` in order, with name,
manufacturer, base, tool and gravity copied from `L`; any other operand
raises `TypeError`.  Pure: neither operand is written to. -/
def DHLink_add (self : DHLink) (L : AddOperand) : Except PyError DHRobot :=
  match L with
  | .link l => .ok (DHRobot_new [self, l])
  | .robot r =>
    .ok { links := self :: r.links, name := r.name,
          manufacturer := r.manufacturer, base := r.base, tool := r.tool,
          gravity := r.gravity }
  | .nonLink => .error (.typeError "Cannot add a Link with a non Link object")

/-- Claim C1: for every descriptor and joint value `q`, `A` returns exactly
the matrix the specification describes: drive adjustment
`q' = flip ? (-q + offset) : (q + offset)`, then `(st, ct)` and the
effective offset distance resolved by joint type, then the standard-DH or
modified-DH matrix of spec section 4.2 chosen by the convention. -/
theorem A_matches_spec (l : DHLink) (q : ℝ) : A l q = A_spec l q := by
  unfold A A_spec specStandardMatrix specModifiedMatrix
  by_cases hs : l.sigma = 0 <;> simp [hs]

/-- Claim C2 (code bug): assigning a nonzero `d` on a prismatic descriptor
does fail, but the raised error's message reads `f is not valid for
prismatic joints` — it names a nonexistent field `f` instead of the
offending field `d`.  The `theta` setter's message, in contrast, does name
`theta`. -/
theorem d_setter_message_names_f :
    (set_d pris1 1).2 =
      some (.valueError "f is not valid for prismatic joints") ∧
    (set_theta dh0 1).2 =
      some (.valueError "theta is not valid for revolute joints") := by
  constructor <;> norm_num [set_d, set_theta, pris1, dh0]

/-- Claim C5: adding a single link to `linkA` yields the two-element chain
`[linkA, other]`; adding an existing chain yields a new chain with links
`[linkA] ++ other.links` and the chain metadata copied verbatim from
`other`; any other operand fails with a `TypeError`.  The embedding is
pure, so neither operand is mutated. -/
theorem add_combine_spec (self l : DHLink) (r : DHRobot) :
    (∃ rob, DHLink_add self (.link l) = .ok rob ∧ rob.links = [self, l]) ∧
    DHLink_add self (.robot r) = .ok { r with links := self :: r.links } ∧
    DHLink_add self .nonLink =
      .error (.typeError "Cannot add a Link with a non Link object") :=
  ⟨⟨DHRobot_new [self, l], rfl, rfl⟩, rfl, rfl⟩

/-- Claim C6: with `offset = 0`, evaluating `A` with `flip = true` at `q`
gives the same matrix as evaluating the otherwise identical descriptor
with `flip = false` at `-q`, for both conventions and both joint types. -/
theorem A_flip_negation (l : DHLink) (q : ℝ) (h : l.offset = 0) :
    A { l with flip := true } q = A { l with flip := false } (-q) := rfl

/-- Witness for C6 at a concrete descriptor and joint value. -/
theorem A_flip_negation_witness :
    dh0.offset = 0 ∧
      A { dh0 with flip := true } 1 = A { dh0 with flip := false } (-1) :=
  ⟨rfl, A_flip_negation dh0 1 rfl⟩

/-- Claim C9: `isrevolute` and `isprismatic` are pure functions of `sigma`
and exactly one of them returns true, in every state of the descriptor. -/
theorem isrevolute_ne_isprismatic (l : DHLink) :
    isrevolute l ≠ isprismatic l := by
  by_cases h : l.sigma = 0 <;> simp [isrevolute, isprismatic, h]

/-- Claim C10: constructing a `DHLink` with no arguments succeeds and
yields a revolute (`sigma = 0`), standard-convention (`mdh` stored as 0)
descriptor with `d = alpha = theta = a = 0` and `id = None`, whatever
state the base class left the object in. -/
theorem default_init_state (l0 : DHLink) :
    DHLink_init l0 0 0 0 0 0 false =
      ({ l0 with sigma := 0, theta := 0, d := 0, alpha := 0, a := 0,
                 mdh := 0, id := none }, none) := by
  simp [DHLink_init, set_sigma, set_theta, set_d, set_alpha, set_a, set_mdh]

/-- Counterexample to claim C3 as stated: the construction
`DHLink(d=1, sigma=1)` fails (at the `d` assignment), yet the `sigma`
field has already been committed — the failed construction leaves the
object with `sigma = 1` although it started with `sigma = 0`. -/
theorem init_partial_commit :
    ((DHLink_init dh0 1 0 0 0 1 false).2).isSome = true ∧
    (DHLink_init dh0 1 0 0 0 1 false).1.sigma = 1 ∧ dh0.sigma = 0 := by
  norm_num [DHLink_init, set_sigma, set_theta, set_d, dh0]

/-- Claim C3 amended: a failed single-field assignment is atomic — when the
`d` setter or the `theta` setter raises, the descriptor is left exactly as
it was.  (Construction is not atomic: fields are assigned in sequence and
each is validated only at its own assignment, so a failing constructor
leaves the earlier fields committed.) -/
theorem setter_atomicity (l : DHLink) (v : ℝ) :
    (((set_d l v).2).isSome = true → (set_d l v).1 = l) ∧
    (((set_theta l v).2).isSome = true → (set_theta l v).1 = l) := by
  refine ⟨?_, ?_⟩ <;> intro h
  · unfold set_d at h ⊢
    by_cases hc : l.sigma ≠ 0 ∧ v ≠ 0
    · rw [if_pos hc]
    · rw [if_neg hc] at h
      exact absurd h (by simp)
  · unfold set_theta at h ⊢
    by_cases hc : l.sigma = 0 ∧ v ≠ 0
    · rw [if_pos hc]
    · rw [if_neg hc] at h
      exact absurd h (by simp)

/-- Witness for the amended C3: a failing `d` assignment on a concrete
prismatic descriptor leaves it unchanged. -/
theorem setter_atomicity_witness :
    ((set_d pris1 5).2).isSome = true ∧ (set_d pris1 5).1 = pris1 := by
  have h : ((set_d pris1 5).2).isSome = true := by
    norm_num [set_d, pris1, dh0]
  exact ⟨h, (setter_atomicity pris1 5).1 h⟩

/-- Counterexample to claim C4 as stated: the `sigma` setter performs no
validation, so a revolute descriptor with `d = 5` (which satisfies the
joint-type invariant) can be mutated to prismatic without error, leaving a
prismatic descriptor with `d = 5 ≠ 0` — the invariant no longer holds
after a setter call that completed without error. -/
theorem sigma_setter_breaks_invariant :
    JointInvariant revD5 ∧ (set_sigma revD5 1).2 = none ∧
      ¬ JointInvariant (set_sigma revD5 1).1 := by
  norm_num [JointInvariant, set_sigma, revD5, dh0]

/-- Claim C4 amended: the validating setters for `d` and `theta` preserve
the joint-type invariant whenever they complete without error, and the
`alpha`, `a` and `mdh` setters preserve it unconditionally — but the
`sigma` setter does not re-validate, so mutating the joint type itself can
break the invariant. -/
theorem setters_preserve_invariant (l : DHLink) (v : ℝ) (b : Bool)
    (hInv : JointInvariant l) :
    ((set_d l v).2 = none → JointInvariant (set_d l v).1) ∧
    ((set_theta l v).2 = none → JointInvariant (set_theta l v).1) ∧
    JointInvariant (set_alpha l v).1 ∧
    JointInvariant (set_a l v).1 ∧
    JointInvariant (set_mdh l b).1 := by
  obtain ⟨h1, h2⟩ := hInv
  refine ⟨?_, ?_, ⟨h1, h2⟩, ⟨h1, h2⟩, ⟨h1, h2⟩⟩
  · intro hok
    unfold set_d at hok ⊢
    by_cases hc : l.sigma ≠ 0 ∧ v ≠ 0
    · rw [if_pos hc] at hok
      exact absurd hok (by simp)
    · rw [if_neg hc]
      push_neg at hc
      exact ⟨fun hs => hc hs, h2⟩
  · intro hok
    unfold set_theta at hok ⊢
    by_cases hc : l.sigma = 0 ∧ v ≠ 0
    · rw [if_pos hc] at hok
      exact absurd hok (by simp)
    · rw [if_neg hc]
      push_neg at hc
      exact ⟨h1, fun hs => hc hs⟩

/-- Witness for the amended C4 at a concrete descriptor and values. -/
theorem setters_preserve_invariant_witness :
    JointInvariant dh0 ∧
      (((set_d dh0 3).2 = none → JointInvariant (set_d dh0 3).1) ∧
       ((set_theta dh0 3).2 = none → JointInvariant (set_theta dh0 3).1) ∧
       JointInvariant (set_alpha dh0 3).1 ∧
       JointInvariant (set_a dh0 3).1 ∧
       JointInvariant (set_mdh dh0 true).1) :=
  ⟨⟨fun h => absurd rfl h, fun _ => rfl⟩,
   setters_preserve_invariant dh0 3 true ⟨fun h => absurd rfl h, fun _ => rfl⟩⟩

/-- Counterexample to claim C7 as stated: at `(d, a, alpha, q) =
(0, 2, pi/2, 0)` the hypotheses hold — `alpha ≠ 0` and `a ≠ 0` — yet the
standard-DH and modified-DH constructions produce the same matrix: with
the joint rotation at identity and `d = 0`, both conventions reduce to a
translation along x composed with the twist about x. -/
theorem std_mdh_coincide :
    Real.pi / 2 ≠ 0 ∧ ((0:ℝ) ≠ 0 ∨ (2:ℝ) ≠ 0) ∧
    A { sigma := 0, theta := 0, d := 0, alpha := Real.pi / 2, a := 2,
        mdh := 0, offset := 0, flip := false, id := none } 0 =
    A { sigma := 0, theta := 0, d := 0, alpha := Real.pi / 2, a := 2,
        mdh := 1, offset := 0, flip := false, id := none } 0 := by
  refine ⟨by positivity, Or.inr (by norm_num), ?_⟩
  simp [A, Real.sin_pi_div_two, Real.cos_pi_div_two]

/-- Claim C7 amended: for a revolute descriptor with `offset = 0` and
`flip = false`, the standard and modified constructions differ whenever
`sin alpha ≠ 0` and (`d ≠ 0` or `cos q ≠ 1`); the conventions are not
interchangeable away from the degenerate configurations where the joint
rotation is the identity and the offset distance vanishes. -/
theorem std_mdh_divergence (d a alpha q : ℝ) (hsa : Real.sin alpha ≠ 0)
    (h : d ≠ 0 ∨ Real.cos q ≠ 1) :
    A { sigma := 0, theta := 0, d := d, alpha := alpha, a := a, mdh := 0,
        offset := 0, flip := false, id := none } q ≠
    A { sigma := 0, theta := 0, d := d, alpha := alpha, a := a, mdh := 1,
        offset := 0, flip := false, id := none } q := by
  intro heq
  have h02 := congrArg Mat4.m02 heq
  have h12 := congrArg Mat4.m12 heq
  have h13 := congrArg Mat4.m13 heq
  simp [A] at h02 h12 h13
  have hst : Real.sin q = 0 := by
    rcases h02 with h' | h'
    · exact h'
    · exact absurd h' hsa
  have hct : Real.cos q = 1 := by
    have h12' : Real.cos q * Real.sin alpha = 1 * Real.sin alpha := by
      rw [one_mul]; exact h12
    exact mul_right_cancel₀ hsa h12'
  have hd : d = 0 := by
    rw [hst, mul_zero] at h13
    have hz : Real.sin alpha * d = 0 := by linarith
    rcases mul_eq_zero.mp hz with h' | h'
    · exact absurd h' hsa
    · exact h'
  rcases h with h' | h'
  · exact h' hd
  · exact h' hct

/-- Witness for the amended C7 at `(d, a, alpha, q) = (1, 0, pi/2, 0)`. -/
theorem std_mdh_divergence_witness :
    Real.sin (Real.pi / 2) ≠ 0 ∧ ((1:ℝ) ≠ 0 ∨ Real.cos 0 ≠ 1) ∧
    A { sigma := 0, theta := 0, d := 1, alpha := Real.pi / 2, a := 0,
        mdh := 0, offset := 0, flip := false, id := none } 0 ≠
    A { sigma := 0, theta := 0, d := 1, alpha := Real.pi / 2, a := 0,
        mdh := 1, offset := 0, flip := false, id := none } 0 :=
  ⟨by norm_num [Real.sin_pi_div_two], Or.inl (by norm_num),
   std_mdh_divergence 1 0 (Real.pi / 2) 0 (by norm_num [Real.sin_pi_div_two])
     (Or.inl (by norm_num))⟩

/-- Counterexample to claim C8 as stated: `PrismaticDH(theta=1)` is a valid
construction — the `theta` setter only rejects nonzero `theta` on revolute
joints — and yields a prismatic descriptor whose stored `theta` is `1`, so
the prismatic branch of `A` resolves `st = sin 1 ≠ 0`, not `(0, 1)`. -/
theorem prismatic_nonzero_theta_constructible :
    (PrismaticDH_init dh0 1 0 0).2 = none ∧
    (PrismaticDH_init dh0 1 0 0).1.theta = 1 ∧
    Real.sin ((PrismaticDH_init dh0 1 0 0).1.theta) ≠ 0 := by
  have h1 : (PrismaticDH_init dh0 1 0 0).2 = none := by
    norm_num [PrismaticDH_init, DHLink_init, set_sigma, set_theta, set_d,
              set_alpha, set_a, set_mdh, dh0]
  have h2 : (PrismaticDH_init dh0 1 0 0).1.theta = 1 := by
    norm_num [PrismaticDH_init, DHLink_init, set_sigma, set_theta, set_d,
              set_alpha, set_a, set_mdh, dh0]
  refine ⟨h1, h2, ?_⟩
  rw [h2]
  have hpos : (0:ℝ) < Real.sin 1 :=
    Real.sin_pos_of_pos_of_lt_pi (by norm_num)
      (by linarith [Real.pi_gt_three])
  exact ne_of_gt hpos

/-- Claim C8 amended: it is the revolute descriptors whose stored `theta`
is forced to 0 — any revolute construction that completes without error
stores `theta = 0`; a prismatic descriptor's `theta` is unconstrained by
validation, and the prismatic branch of `A` resolves
`(st, ct) = (sin theta, cos theta)` of the stored value, which is `(0, 1)`
only when `theta` was left at its default 0. -/
theorem revolute_init_theta_zero (l0 : DHLink) (d alpha theta a : ℝ)
    (mdh : Bool) (h : (DHLink_init l0 d alpha theta a 0 mdh).2 = none) :
    (DHLink_init l0 d alpha theta a 0 mdh).1.theta = 0 := by
  by_cases hθ : theta = 0
  · simp [DHLink_init, set_sigma, set_theta, set_d, set_alpha, set_a,
          set_mdh, hθ]
  · exfalso
    simp [DHLink_init, set_sigma, set_theta, set_d, set_alpha, set_a,
          set_mdh, hθ] at h

/-- Witness for the amended C8: a concrete revolute construction succeeds
and stores `theta = 0`. -/
theorem revolute_init_theta_zero_witness :
    (DHLink_init dh0 3 1 0 2 0 false).2 = none ∧
      (DHLink_init dh0 3 1 0 2 0 false).1.theta = 0 := by
  have h : (DHLink_init dh0 3 1 0 2 0 false).2 = none := by
    norm_num [DHLink_init, set_sigma, set_theta, set_d, set_alpha, set_a,
              set_mdh, dh0]
  exact ⟨h, revolute_init_theta_zero dh0 3 1 0 2 false h⟩
